import Mathlib

/-!
Verification development for the ASFIES CAOM lead-qualification backend
(`app.py`).  The service logic is shallowly embedded: pandas DataFrames
become a `Table` of column names plus rows of string cells, the Flask
handler becomes a total function from its inputs (configured token,
authorization header, parsed JSON body, outcome of the spreadsheet load,
text-generation credential and the outcome of the external text call) to
an HTTP response value, and the process-wide table cache becomes explicit
state passing.  Cells are modelled as the strings `str(x)` would produce;
missing columns read as the empty string, matching `row.get(c)` on an
absent key followed by `_safe_str`.
-/

/-- Whitespace test used by the model of Python `str.strip` / pandas
`str.strip` (ASCII whitespace; the claims never hinge on exotic Unicode
spaces). -/
def isWs (c : Char) : Bool :=
  c == ' ' || c == '\t' || c == '\n' || c == '\r'

/-- Drop leading whitespace. -/
def dropWs (l : List Char) : List Char := l.dropWhile isWs

/-- Trim whitespace from both ends of a character list. -/
def trimL (l : List Char) : List Char :=
  ((dropWs l).reverse.dropWhile isWs).reverse

/-- Model of Python `str.strip()`. -/
def pyStrip (s : String) : String := ⟨trimL s.data⟩

/-- Lower-case / upper-case pairs covering ASCII letters plus the accented
Spanish letters that occur in the source's literals and data; models
Python `str.lower` / `str.upper` on that alphabet. -/
def casePairs : List (Char × Char) :=
  [('a', 'A'), ('b', 'B'), ('c', 'C'), ('d', 'D'), ('e', 'E'), ('f', 'F'),
   ('g', 'G'), ('h', 'H'), ('i', 'I'), ('j', 'J'), ('k', 'K'), ('l', 'L'),
   ('m', 'M'), ('n', 'N'), ('o', 'O'), ('p', 'P'), ('q', 'Q'), ('r', 'R'),
   ('s', 'S'), ('t', 'T'), ('u', 'U'), ('v', 'V'), ('w', 'W'), ('x', 'X'),
   ('y', 'Y'), ('z', 'Z'), ('á', 'Á'), ('é', 'É'), ('í', 'Í'), ('ó', 'Ó'),
   ('ú', 'Ú'), ('ñ', 'Ñ'), ('ü', 'Ü')]

/-- Model of Python `str.upper` on a single character. -/
def pyUpperChar (c : Char) : Char :=
  (((casePairs.find? (fun p => p.1 == c)).map Prod.snd).getD c)

/-- Model of Python `str.lower` on a single character. -/
def pyLowerChar (c : Char) : Char :=
  (((casePairs.find? (fun p => p.2 == c)).map Prod.fst).getD c)

/-- Model of Python `str.upper`. -/
def pyUpper (s : String) : String := ⟨s.data.map pyUpperChar⟩

/-- Model of Python `str.lower`. -/
def pyLower (s : String) : String := ⟨s.data.map pyLowerChar⟩

/-- A JSON profile field value as the handler can receive it: a native
boolean, a string, or absent (`None` / key missing).  Other JSON types
only ever flow into prompt/email text, not into the logic under claim. -/
inductive PV where
  | b (v : Bool)
  | s (v : String)
  | missing
deriving DecidableEq

/-- `_safe_str` from `app.py`: `"" if x is None else str(x).strip()`.
`str(True) = "True"`, `str(False) = "False"`. -/
def safe_str : PV → String
  | .b true => "True"
  | .b false => "False"
  | .s t => pyStrip t
  | .missing => ""

/-- `_as_bool` from `app.py`: native booleans pass through, otherwise the
stripped, lower-cased string must be one of the permissive truthy
tokens. -/
def as_bool : PV → Bool
  | .b v => v
  | v => ["true", "1", "yes", "si", "sí", "y"].contains (pyLower (safe_str v))

/-- A pandas DataFrame: column headers plus rows of positional string
cells (cells modelled as the text `str(x)` yields). -/
structure Table where
  cols : List String
  rows : List (List String)
deriving DecidableEq

/-- `row.get(c)` followed by `_safe_str`-style stringification: locate the
column positionally; a missing column (including the empty resolver
result `""`) reads as `""`. -/
def cellAt (cols : List String) (r : List String) (c : String) : String :=
  match List.findIdx? (fun x => x == c) cols with
  | some i => r.getD i ""
  | none => ""

/-- The profile fields that feed the matching / gating logic.  The
remaining request fields (names, phone, property details, amounts) are
only interpolated into log lines, the LLM prompt and the email body,
none of which the claims quantify over. -/
structure Perfil where
  ventas_rango : PV := .missing
  antiguedad : PV := .missing
  tipo_financiamiento : PV := .missing
  tiene_garantia_inmueble : PV := .missing
  solicita_contacto : PV := .missing
deriving DecidableEq

/-- `_extract_min_years` helper: value of a run of decimal digits. -/
def digitsVal (l : List Char) : Nat :=
  l.foldl (fun acc c => 10 * acc + (c.toNat - 48)) 0

/-- First maximal run of decimal digits in a character list, if any
(the `re.search(r"(\d+)", s)` match). -/
def firstDigitRun : List Char → Option (List Char)
  | [] => none
  | c :: rest =>
    if c.isDigit then some (c :: rest.takeWhile Char.isDigit)
    else firstDigitRun rest

/-- `_extract_min_years` from `app.py`: `int` of the first digit run of
`_safe_str(val)`, else `0`. -/
def extract_min_years (val : String) : Nat :=
  match firstDigitRun (pyStrip val).data with
  | some ds => digitsVal ds
  | none => 0

/-- `_map_antiguedad_user` from `app.py`: fixed label-to-years lookup,
default `0`. -/
def map_antiguedad_user (texto : String) : Nat :=
  if texto = "Menos de 1 año" then 0
  else if texto = "Entre 1 y 3 años" then 1
  else if texto = "Entre 3 y 5 años" then 3
  else if texto = "Más de 5 años" then 5
  else 0

/-- Sales-range filter (`df[df[rango].astype(str).str.upper().str.strip() == "X"]`,
guarded by `if rango and rango in df.columns`). -/
def salesFilter (rango : String) (df : Table) : Table :=
  if rango ≠ "" ∧ rango ∈ df.cols then
    { df with rows := df.rows.filter (fun r => pyStrip (pyUpper (cellAt df.cols r rango)) == "X") }
  else df

/-- Age-requirement column resolution: first present candidate among the
three spellings tried by the source. -/
def antCol (df : Table) : Option String :=
  ["Antigúedad", "Antiguedad", "Antigüedad"].find? (fun c => df.cols.contains c)

/-- Years-in-business filter.  The source materializes the extracted
integers as a helper column `min_anios` on the working copy before
filtering (`df["min_anios"] = df[ant_col].apply(_extract_min_years);
df = df[df["min_anios"] <= user_years]`); no later lookup reads that
column (no candidate list contains `min_anios`), so the stage is modelled
by its row-filtering effect.  When no age column exists the source only
adds the constant column and drops nothing. -/
def yearsStage (userYears : Nat) (df : Table) : Table :=
  match antCol df with
  | some c =>
    { df with rows := df.rows.filter (fun r => extract_min_years (cellAt df.cols r c) ≤ userYears) }
  | none => df

/-- Type-column resolution for the financing-type filter (note the
trailing-space spelling tried last, exactly as in the source). -/
def tipoCol (df : Table) : Option String :=
  ["Tipo de financiamiento", "Tipo", "Producto", "Tipo de financiamiento "].find?
    (fun c => df.cols.contains c)

/-- One token of the regex fragment the model covers: a literal character
or the `.` wildcard.  `df[col].astype(str).str.contains(pat, case=False,
na=False)` compiles `pat` with Python `re` (IGNORECASE); this embedding is
faithful for pattern strings whose only metacharacter is `.`. -/
inductive RTok where
  | lit (c : Char)
  | dot
deriving DecidableEq

/-- Single-token match under `re.IGNORECASE`; the default-mode `.` does
not match a newline. -/
def rtokMatch : RTok → Char → Bool
  | .lit a, b => pyLowerChar a == pyLowerChar b
  | .dot, b => b != '\n'

/-- Match a token list against a prefix of the subject. -/
def matchesAt : List RTok → List Char → Bool
  | [], _ => true
  | _ :: _, [] => false
  | t :: ts, c :: cs => rtokMatch t c && matchesAt ts cs

/-- `re.search` over the fragment: try every start position. -/
def reSearch (p : List RTok) : List Char → Bool
  | [] => p.isEmpty
  | l@(_ :: cs) => matchesAt p l || reSearch p cs

/-- Compile a pattern string into the fragment: `.` becomes the wildcard,
anything else a literal.  Faithful to Python `re` exactly when the string
contains no metacharacter other than `.`. -/
def toPattern (s : String) : List RTok :=
  s.data.map (fun c => if c == '.' then RTok.dot else RTok.lit c)

/-- The source's `str.contains(tipo_user, case=False, na=False)` cell
test (cells are modelled as strings, so the `na` case does not arise). -/
def strContainsCI (pat s : String) : Bool :=
  reSearch (toPattern pat) s.data

/-- Financing-type filter (`if tipo_col and tipo_user:` then the
case-insensitive `str.contains` mask). -/
def tipoStage (tipoUser : String) (df : Table) : Table :=
  match tipoCol df with
  | some c =>
    if tipoUser ≠ "" then
      { df with rows := df.rows.filter (fun r => strContainsCI tipoUser (cellAt df.cols r c)) }
    else df
  | none => df

/-- A recommendation record as built from a matched row. -/
structure Rec where
  financiera : String
  tipo : String
  caracteristicas : String
  monto_ref : String
  plazo_ref : String
deriving DecidableEq

/-- The local `col(*names)` resolver: first candidate present among the
columns, else `""`. -/
def colRes (cols : List String) (cands : List String) : String :=
  (cands.find? (fun n => cols.contains n)).getD ""

/-- Candidate column names for the institution field. -/
def finCands : List String := ["Financiera", "Nombre", "Institución"]

/-- Candidate column names for the output `tipo` field. -/
def tipoOutCands : List String := ["Tipo de financiamiento", "Tipo", "Producto"]

/-- Candidate column names for the benefit-description field. -/
def ayuCands : List String :=
  ["Como ayuda este financiamiento", "Cómo ayuda este financiamiento", "Ayuda", "Descripción"]

/-- Candidate column names for the amount field. -/
def mtoCands : List String := ["Montos en pesos", "Monto", "Montos"]

/-- Candidate column names for the term field. -/
def plzCands : List String := ["Plazos", "Plazo"]

/-- Build one recommendation record from a surviving row
(`_safe_str(row.get(c))` per field). -/
def mkRec (cols : List String) (r : List String) : Rec :=
  { financiera := pyStrip (cellAt cols r (colRes cols finCands)),
    tipo := pyStrip (cellAt cols r (colRes cols tipoOutCands)),
    caracteristicas := pyStrip (cellAt cols r (colRes cols ayuCands)),
    monto_ref := pyStrip (cellAt cols r (colRes cols mtoCands)),
    plazo_ref := pyStrip (cellAt cols r (colRes cols plzCands)) }

/-- The three filter stages in source order. -/
def filteredTable (df : Table) (perfil : Perfil) : Table :=
  tipoStage (safe_str perfil.tipo_financiamiento)
    (yearsStage (map_antiguedad_user (safe_str perfil.antiguedad))
      (salesFilter (safe_str perfil.ventas_rango) df))

/-- `obtener_recomendaciones_financieras` from `app.py`: filter, take the
head-3 rows, build records (the source's early return on an empty head is
the empty map). -/
def obtener_recomendaciones_financieras (df : Table) (perfil : Perfil) : List Rec :=
  let ft := filteredTable df perfil
  (ft.rows.take 3).map (mkRec ft.cols)

/-- An anonymized strategy record: no institution field at all. -/
structure Estrategia where
  estrategia : String
  tipo : String
  caracteristicas : String
  monto_ref : String
  plazo_ref : String
deriving DecidableEq

/-- The fixed generic strategy names. -/
def nombresEstrategia : List String :=
  ["Estrategia Alfa", "Estrategia Beta", "Estrategia Delta"]

/-- Label for the 1-based position `i`:
`nombres[i-1] if i-1 < len(nombres) else f"Estrategia {i}"` plus the
fixed suffix. -/
def etiqueta (i : Nat) : String :=
  (nombresEstrategia.getD (i - 1) ("Estrategia " ++ toString i)) ++
    ": Optimización con Respaldo Inmobiliario"

/-- One strategy record from a recommendation at 1-based position `i`;
the `financiera` field of the input is never read. -/
def mkEstrategia (i : Nat) (r : Rec) : Estrategia :=
  { estrategia := etiqueta i,
    tipo := pyStrip r.tipo,
    caracteristicas := pyStrip r.caracteristicas,
    monto_ref := pyStrip r.monto_ref,
    plazo_ref := pyStrip r.plazo_ref }

/-- `enumerate(recs, start=i)` loop body of `recomendaciones_a_estrategias`. -/
def estrategiasAux (i : Nat) : List Rec → List Estrategia
  | [] => []
  | r :: rs => mkEstrategia i r :: estrategiasAux (i + 1) rs

/-- `recomendaciones_a_estrategias` from `app.py`. -/
def recomendaciones_a_estrategias (recs : List Rec) : List Estrategia :=
  estrategiasAux 1 recs

/-- Fallback text returned when no text-generation credential is
configured and the collateral flag is true. -/
def fallback_garantia : String :=
  "Con base en tu perfil y el respaldo patrimonial, identificamos estrategias viables para estructurar financiamiento bajo CAOM. Un estratega te contactará a la brevedad para validar supuestos y confirmar la ruta óptima."

/-- Fallback text returned when no text-generation credential is
configured and the collateral flag is false. -/
def fallback_sin_garantia : String :=
  "Con base en tu perfil, te compartimos recomendaciones preliminares disponibles en nuestra matriz. En este momento, el alcance es informativo y depende de validación documental posterior."

/-- Text returned when a credential is configured but the external call
raises (the `except` branch of `generar_diagnostico_gpt`). -/
def fallback_error_gpt : String :=
  "Nuestro equipo procesará tu información para entregarte un diagnóstico preliminar."

/-- `generar_diagnostico_gpt` from `app.py`.  The profile and item list
only feed the prompt string, which is opaque to the claims; the external
call is modelled by its outcome: `some t` is a successful completion with
content `t` (returned `.strip()`-ed), `none` is any raised exception. -/
def generar_diagnostico_gpt (apiKey : String) (es_garantia : Bool)
    (llm : Option String) : String :=
  if apiKey = "" then
    if es_garantia then fallback_garantia else fallback_sin_garantia
  else
    match llm with
    | some t => pyStrip t
    | none => fallback_error_gpt

/-- A JSON value in a response body: a string, a list of plain
recommendation records, or a list of anonymized strategy records. -/
inductive RVal where
  | str (v : String)
  | recs (v : List Rec)
  | estr (v : List Estrategia)
deriving DecidableEq

/-- An HTTP response of the `/diagnostico` handler, together with the
observable of whether the handler invoked `send_lead_email`
(`emailAttempted`).  Inside `send_lead_email` missing SMTP configuration
or a transport exception is logged and swallowed, so invocation is the
handler-level delivery attempt. -/
structure HttpResp where
  code : Nat
  body : List (String × RVal)
  emailAttempted : Bool
deriving DecidableEq

/-- Static `diagnostico_ia` text of the `not_found` response. -/
def noMatchMsg : String :=
  "Por el momento no encontramos coincidencias exactas en nuestra matriz para el perfil capturado. Si lo deseas, un consultor puede revisarlo manualmente."

/-- Header used on the collateral path. -/
def headerGarantia : String := "Tenemos las siguientes estrategias"

/-- Header used on the non-collateral path. -/
def headerSin : String := "Opciones de Financiamiento Identificadas"

/-- The `/diagnostico` handler from `app.py`.  Inputs: the configured
`ASFIES_TOKEN`, the `Authorization` header, the parsed JSON body (`none`
models an empty/unparseable body, turned into `{}` by
`request.get_json(silent=True) or {}`), the outcome of `_load_matriz()`
(the only raising step inside the `try`), the configured
`OPENAI_API_KEY`, and the outcome of the external text call.  The
normalization of `nombre`/`apellido`/`nombre_empresa` only rewrites
fields that feed log/prompt/email text and is omitted. -/
def diagnostico (token authHeader : String) (body? : Option Perfil)
    (loadRes : Except String Table) (apiKey : String) (llm : Option String) :
    HttpResp :=
  if token = "" then
    ⟨500, [("error", RVal.str "Server misconfigured: ASFIES_TOKEN missing")], false⟩
  else if authHeader ≠ "Bearer " ++ token then
    ⟨401, [("error", RVal.str "Unauthorized")], false⟩
  else
    let datos := body?.getD {}
    let es_garantia := as_bool datos.tiene_garantia_inmueble
    let _solicita_contacto := as_bool datos.solicita_contacto
    match loadRes with
    | .error _ =>
      ⟨500, [("status", RVal.str "error"),
             ("error", RVal.str "Error interno procesando el diagnóstico"),
             ("recomendaciones", RVal.recs [])], false⟩
    | .ok df =>
      let financieras := obtener_recomendaciones_financieras df datos
      if financieras.isEmpty then
        ⟨200, [("status", RVal.str "not_found"),
               ("header", RVal.str (if es_garantia then headerGarantia else headerSin)),
               ("diagnostico_ia", RVal.str noMatchMsg),
               ("recomendaciones", RVal.recs [])], false⟩
      else if es_garantia then
        ⟨200, [("status", RVal.str "success"),
               ("header", RVal.str headerGarantia),
               ("diagnostico_ia", RVal.str (generar_diagnostico_gpt apiKey true llm)),
               ("recomendaciones", RVal.estr (recomendaciones_a_estrategias financieras))], true⟩
      else
        ⟨200, [("status", RVal.str "success"),
               ("header", RVal.str headerSin),
               ("diagnostico_ia", RVal.str (generar_diagnostico_gpt apiKey false llm)),
               ("recomendaciones", RVal.recs financieras)], false⟩

/-- Column-header trimming performed by `_load_matriz` on a freshly read
spreadsheet (`df.columns = [c.strip() for c in df.columns]`). -/
def stripCols (df : Table) : Table :=
  { df with cols := df.cols.map pyStrip }

/-- Outcome of one `_load_matriz()` call: its result, the cache slot
after the call, and whether the filesystem was consulted. -/
structure LoadOut where
  result : Except String Table
  cache : Option Table
  readFile : Bool

/-- `_load_matriz` from `app.py` with the module-global `_MATRIZ_CACHE`
made explicit.  `file` is the outcome of the filesystem access
(`os.path.exists` + `pd.read_excel`): `.error` models the
`FileNotFoundError` raise, `.ok` the raw frame.  On an error the cache
assignment is never reached. -/
def load_matriz (cache : Option Table) (file : Except String Table) : LoadOut :=
  match cache with
  | some t => ⟨.ok t, some t, false⟩
  | none =>
    match file with
    | .error e => ⟨.error e, none, true⟩
    | .ok raw => ⟨.ok (stripCols raw), some (stripCols raw), true⟩

/-- `obtener_recomendaciones_financieras` with the cache threaded: the
matcher works on `_load_matriz().copy()`, so all of its per-request
column assignments and filters happen on the copy and the cache slot it
returns is exactly the one `_load_matriz` left. -/
def obtenerSt (cache : Option Table) (file : Except String Table)
    (perfil : Perfil) : Except String (List Rec) × Option Table :=
  let out := load_matriz cache file
  match out.result with
  | .error e => (.error e, out.cache)
  | .ok df => (.ok (obtener_recomendaciones_financieras df perfil), out.cache)

/-- A trace of `n` successive `_load_matriz()` calls against the same
file outcome, returning the final cache slot and the number of
filesystem reads performed. -/
def loadTrace (file : Except String Table) : Nat → Option Table → Option Table × Nat
  | 0, c => (c, 0)
  | n + 1, c =>
    let out := load_matriz c file
    let rest := loadTrace file n out.cache
    (rest.1, (if out.readFile then 1 else 0) + rest.2)

/-- Case-insensitive prefix test, spelled with the same character-level
case folding the regex model uses. -/
def isPrefCI : List Char → List Char → Bool
  | [], _ => true
  | _ :: _, [] => false
  | a :: as, b :: bs => (pyLowerChar a == pyLowerChar b) && isPrefCI as bs

/-- Case-insensitive substring containment on character lists. -/
def containsCIL (pat : List Char) : List Char → Bool
  | [] => pat.isEmpty
  | l@(_ :: cs) => isPrefCI pat l || containsCIL pat cs

/-- Rendering of the spec's words for the financing-type filter: the
type-column text contains the profile string as a case-insensitive
substring (plain containment).  Compared against the source-derived
`strContainsCI`. -/
def specSubstrCI (pat s : String) : Bool :=
  containsCIL pat.data s.data

/-- The Python `re` metacharacters; on pattern strings avoiding all of
them the regex fragment modelled by `toPattern` is exact. -/
def reMeta : List Char :=
  ['.', '^', '$', '*', '+', '?', Char.ofNat 123, Char.ofNat 125,
   '[', ']', '\\', '|', '(', ')']

/-- No entry of the case table is whitespace on either side. -/
theorem casePairs_not_ws :
    casePairs.all (fun p => !isWs p.1 && !isWs p.2) = true := by decide

/-- Upper-casing never changes whitespace-ness. -/
theorem isWs_pyUpperChar (c : Char) : isWs (pyUpperChar c) = isWs c := by
  unfold pyUpperChar
  cases h : casePairs.find? (fun p => p.1 == c) with
  | none => rfl
  | some p =>
    have hm := List.mem_of_find?_eq_some h
    have hp := List.find?_some h
    have hc : p.1 = c := by simpa using hp
    have hws := List.all_eq_true.mp casePairs_not_ws p hm
    simp only [Bool.and_eq_true, Bool.not_eq_true'] at hws
    simp [← hc, hws.1, hws.2]

/-- `dropWhile isWs` commutes with character-wise upper-casing. -/
theorem dropWhile_ws_map_upper (l : List Char) :
    (l.map pyUpperChar).dropWhile isWs = (l.dropWhile isWs).map pyUpperChar := by
  have hf : (isWs ∘ pyUpperChar) = isWs := by
    funext c
    exact isWs_pyUpperChar c
  rw [List.dropWhile_map, hf]

/-- Trimming commutes with character-wise upper-casing. -/
theorem trimL_map_upper (l : List Char) :
    trimL (l.map pyUpperChar) = (trimL l).map pyUpperChar := by
  unfold trimL dropWs
  rw [dropWhile_ws_map_upper, ← List.map_reverse, dropWhile_ws_map_upper,
    ← List.map_reverse]

/-- Python `upper().strip()` equals `strip().upper()`: the order the
source applies them in matches the order the spec states them in. -/
theorem strip_upper_comm (s : String) :
    pyStrip (pyUpper s) = pyUpper (pyStrip s) :=
  congrArg String.mk (trimL_map_upper s.data)

/-- Characters of a trimmed list come from the original list. -/
theorem mem_of_mem_trimL (c : Char) (l : List Char) (h : c ∈ trimL l) :
    c ∈ l := by
  unfold trimL dropWs at h
  rw [List.mem_reverse] at h
  have h1 := (List.dropWhile_sublist _).subset h
  rw [List.mem_reverse] at h1
  exact (List.dropWhile_sublist _).subset h1

/-- A list without digits has no first digit run. -/
theorem firstDigitRun_none (l : List Char) (h : ∀ c ∈ l, c.isDigit = false) :
    firstDigitRun l = none := by
  induction l with
  | nil => rfl
  | cons c cs ih =>
    unfold firstDigitRun
    rw [if_neg (by simp [h c (List.mem_cons_self c cs)])]
    exact ih (fun d hd => h d (List.mem_cons_of_mem c hd))

/-- An all-literal pattern matches a prefix exactly as the
case-insensitive prefix test does. -/
theorem matchesAt_lit (pat s : List Char) :
    matchesAt (pat.map RTok.lit) s = isPrefCI pat s := by
  induction pat generalizing s with
  | nil => cases s <;> rfl
  | cons a as ih =>
    cases s with
    | nil => rfl
    | cons b bs => simp [matchesAt, isPrefCI, rtokMatch, ih]

/-- An all-literal pattern searches exactly as case-insensitive substring
containment does. -/
theorem reSearch_lit (pat s : List Char) :
    reSearch (pat.map RTok.lit) s = containsCIL pat s := by
  induction s with
  | nil => cases pat <;> rfl
  | cons c cs ih => simp [reSearch, containsCIL, matchesAt_lit, ih]

/-- On metacharacter-free strings the compiled pattern is all-literal. -/
theorem toPattern_no_meta (s : String) (h : ∀ c ∈ s.data, c ∉ reMeta) :
    toPattern s = s.data.map RTok.lit := by
  unfold toPattern
  apply List.map_congr_left
  intro c hc
  have hd : ¬(c = '.') := fun he => h c hc (by rw [he]; decide)
  simp [hd]

/-- On metacharacter-free profile strings the source's regex-based
`str.contains` coincides with case-insensitive substring containment. -/
theorem strContainsCI_no_meta (pat s : String)
    (h : ∀ c ∈ pat.data, c ∉ reMeta) :
    strContainsCI pat s = specSubstrCI pat s := by
  unfold strContainsCI specSubstrCI
  rw [toPattern_no_meta pat h, reSearch_lit]

/-- The sales-range stage never reorders: its rows are a sublist. -/
theorem salesFilter_rows_sublist (rango : String) (df : Table) :
    List.Sublist (salesFilter rango df).rows df.rows := by
  unfold salesFilter
  split
  · exact List.filter_sublist df.rows
  · exact List.Sublist.refl df.rows

/-- The years stage never reorders: its rows are a sublist. -/
theorem yearsStage_rows_sublist (y : Nat) (df : Table) :
    List.Sublist (yearsStage y df).rows df.rows := by
  unfold yearsStage
  cases h : antCol df with
  | none => exact List.Sublist.refl df.rows
  | some c => exact List.filter_sublist df.rows

/-- The type stage never reorders: its rows are a sublist. -/
theorem tipoStage_rows_sublist (u : String) (df : Table) :
    List.Sublist (tipoStage u df).rows df.rows := by
  unfold tipoStage
  split
  · split
    · exact List.filter_sublist df.rows
    · exact List.Sublist.refl df.rows
  · exact List.Sublist.refl df.rows

/-- All three stages leave the rows a sublist of the table's rows. -/
theorem filteredTable_rows_sublist (df : Table) (perfil : Perfil) :
    List.Sublist (filteredTable df perfil).rows df.rows := by
  unfold filteredTable
  exact ((tipoStage_rows_sublist _ _).trans (yearsStage_rows_sublist _ _)).trans
    (salesFilter_rows_sublist _ _)

/-- Rewriting the institution field of every recommendation does not
change the anonymized strategies, from any start index. -/
theorem estrategiasAux_fin_free (i : Nat) (recs : List Rec) (f : Rec → String) :
    estrategiasAux i (recs.map (fun r => { r with financiera := f r })) =
      estrategiasAux i recs := by
  induction recs generalizing i with
  | nil => rfl
  | cons r rs ih => simp [estrategiasAux, mkEstrategia, ih]

/-- The strategy labels are the fixed sequence of generic labels,
independent of the recommendation contents. -/
theorem estrategiasAux_labels (i : Nat) (recs : List Rec) :
    (estrategiasAux i recs).map Estrategia.estrategia =
      (List.range recs.length).map (fun j => etiqueta (i + j)) := by
  induction recs generalizing i with
  | nil => rfl
  | cons r rs ih =>
    simp only [estrategiasAux, List.map_cons, List.length_cons,
      List.range_succ_eq_map, List.map_map, ih]
    refine congrArg₂ List.cons ?_ ?_
    · simp [mkEstrategia]
    · apply List.map_congr_left
      intro j hj
      simp only [Function.comp]
      exact congrArg etiqueta (by omega)

/-- Further loads against a populated cache return it unchanged and never
read the file, over any number of calls. -/
theorem loadTrace_cached (file : Except String Table) (n : Nat) (t : Table) :
    loadTrace file n (some t) = (some t, 0) := by
  induction n with
  | zero => rfl
  | succ m ih => simp [loadTrace, load_matriz, ih]

/-- Claim C1, counterexample: a request whose `solicita_contacto` parses
true (and whose collateral flag is false) yields a non-empty match list,
yet the handler never invokes the lead-email delivery — refuting
"delivery is attempted if ... OR the parsed solicita_contacto flag is
true". -/
theorem C1_cex :
    as_bool (PV.s "true") = true ∧
    obtener_recomendaciones_financieras (Table.mk ["Financiera"] [["Banco Uno"]])
      { solicita_contacto := PV.s "true" } ≠ [] ∧
    (diagnostico "t" ("Bearer " ++ "t")
        (some { solicita_contacto := PV.s "true" })
        (.ok (Table.mk ["Financiera"] [["Banco Uno"]])) "" none).emailAttempted =
      false := by
  refine ⟨rfl, by decide, by decide⟩

/-- Claim C1, amended: the lead-email delivery is attempted exactly when
the parsed `tiene_garantia_inmueble` flag is true and the match list is
non-empty; the parsed `solicita_contacto` flag never gates delivery.  In
particular when both flags are false no delivery is attempted. -/
theorem C1_thm (token : String) (h : token ≠ "") (body? : Option Perfil)
    (df : Table) (apiKey : String) (llm : Option String) :
    (diagnostico token ("Bearer " ++ token) body? (.ok df) apiKey llm).emailAttempted =
      (as_bool (body?.getD {}).tiene_garantia_inmueble &&
        !(obtener_recomendaciones_financieras df (body?.getD {})).isEmpty) := by
  unfold diagnostico
  rw [if_neg h, if_neg (by simp)]
  cases hE : (obtener_recomendaciones_financieras df (body?.getD {})).isEmpty
  · cases hG : as_bool (body?.getD {}).tiene_garantia_inmueble
    · simp [hE, hG]
    · simp [hE, hG]
  · simp [hE]

/-- Claim C1, witness for the amended theorem at a concrete request. -/
theorem C1_witness :
    (diagnostico "t" ("Bearer " ++ "t") (some { solicita_contacto := PV.s "true" })
        (.ok (Table.mk ["Financiera"] [["Banco Uno"]])) "" none).emailAttempted =
      (as_bool ((some ({ solicita_contacto := PV.s "true" } : Perfil)).getD {}).tiene_garantia_inmueble &&
        !(obtener_recomendaciones_financieras (Table.mk ["Financiera"] [["Banco Uno"]])
            ((some ({ solicita_contacto := PV.s "true" } : Perfil)).getD {})).isEmpty) :=
  C1_thm "t" (by decide) (some { solicita_contacto := PV.s "true" })
    (Table.mk ["Financiera"] [["Banco Uno"]]) "" none

/-- Claim C3, counterexample: with a credential configured and the
external call failing, the generator returns a third fixed string — not
one of the two fallbacks — and the result no longer depends on the
collateral flag, refuting "one of exactly two fixed fallback strings
... chosen by whether the flag is true". -/
theorem C3_cex :
    generar_diagnostico_gpt "k" true none = fallback_error_gpt ∧
    generar_diagnostico_gpt "k" false none = fallback_error_gpt ∧
    fallback_error_gpt ≠ fallback_garantia ∧
    fallback_error_gpt ≠ fallback_sin_garantia := by
  exact ⟨by decide, by decide, by decide, by decide⟩

/-- Claim C3, amended: with no credential configured the generator
returns one of two fixed fallbacks chosen solely by the collateral flag;
with a credential configured and the external call failing it returns a
single third fixed fallback, independent of the flag. -/
theorem C3_thm (apiKey : String) (es_garantia : Bool) (llm : Option String) :
    (apiKey = "" →
      generar_diagnostico_gpt apiKey es_garantia llm =
        (if es_garantia then fallback_garantia else fallback_sin_garantia)) ∧
    (apiKey ≠ "" →
      generar_diagnostico_gpt apiKey es_garantia none = fallback_error_gpt) := by
  constructor
  · intro hk
    simp [generar_diagnostico_gpt, hk]
  · intro hk
    simp [generar_diagnostico_gpt, hk]

/-- Claim C3, witness: both hypotheses of the amended theorem discharged
at concrete configurations. -/
theorem C3_witness :
    generar_diagnostico_gpt "" true none =
      (if true then fallback_garantia else fallback_sin_garantia) ∧
    generar_diagnostico_gpt "k" true none = fallback_error_gpt :=
  ⟨(C3_thm "" true none).1 rfl, (C3_thm "k" true none).2 (by decide)⟩

/-- Claim C4, counterexample: on the internal-error outcome the response
body carries only `status`, `error` and `recomendaciones` — `header` and
`diagnostico_ia` are absent — refuting "always contains all four keys
... including on the internal-error outcome". -/
theorem C4_cex :
    ((diagnostico "t" ("Bearer " ++ "t") none (.error "No se encontró matriz.xlsx")
        "" none).body.map Prod.fst = ["status", "error", "recomendaciones"]) ∧
    (((diagnostico "t" ("Bearer " ++ "t") none (.error "No se encontró matriz.xlsx")
        "" none).body.map Prod.fst).contains "header" = false) := by
  exact ⟨by decide, by decide⟩

/-- Claim C4, amended: on the success and not_found outcomes the body
carries exactly `status`, `header`, `diagnostico_ia`, `recomendaciones`;
on the internal-error outcome it carries exactly `status`, `error`,
`recomendaciones`. -/
theorem C4_thm (token : String) (h : token ≠ "") (body? : Option Perfil)
    (df : Table) (apiKey : String) (llm : Option String) (e : String) :
    ((diagnostico token ("Bearer " ++ token) body? (.ok df) apiKey llm).body.map
        Prod.fst = ["status", "header", "diagnostico_ia", "recomendaciones"]) ∧
    ((diagnostico token ("Bearer " ++ token) body? (.error e) apiKey llm).body.map
        Prod.fst = ["status", "error", "recomendaciones"]) := by
  constructor
  · unfold diagnostico
    rw [if_neg h, if_neg (by simp)]
    cases hE : (obtener_recomendaciones_financieras df (body?.getD {})).isEmpty
    · cases hG : as_bool (body?.getD {}).tiene_garantia_inmueble
      · simp [hE, hG]
      · simp [hE, hG]
    · simp [hE]
  · unfold diagnostico
    rw [if_neg h, if_neg (by simp)]
    rfl

/-- Claim C4, witness for the amended theorem at a concrete request. -/
theorem C4_witness :
    ((diagnostico "t" ("Bearer " ++ "t") none (.ok (Table.mk ["Financiera"] [["A"]]))
        "" none).body.map Prod.fst =
      ["status", "header", "diagnostico_ia", "recomendaciones"]) ∧
    ((diagnostico "t" ("Bearer " ++ "t") none (.error "sin archivo") "" none).body.map
        Prod.fst = ["status", "error", "recomendaciones"]) :=
  C4_thm "t" (by decide) none (Table.mk ["Financiera"] [["A"]]) "" none "sin archivo"

/-- Claim C6, confirmed (under the endpoint's operating assumption that a
secret is configured): a wrong or missing bearer token yields exactly the
401 response — same body, no matching, narrative or notification work,
for every request body and load outcome — and a correct token with an
empty body is processed to a 200 response with all profile fields
defaulting to empty/false. -/
theorem C6_thm (token : String) (h : token ≠ "") (authH : String)
    (hA : authH ≠ "Bearer " ++ token) (body? : Option Perfil)
    (loadRes : Except String Table) (apiKey : String) (llm : Option String)
    (df : Table) :
    diagnostico token authH body? loadRes apiKey llm =
      ⟨401, [("error", RVal.str "Unauthorized")], false⟩ ∧
    (diagnostico token ("Bearer " ++ token) none (.ok df) apiKey llm).code = 200 := by
  constructor
  · unfold diagnostico
    rw [if_neg h, if_pos hA]
  · unfold diagnostico
    rw [if_neg h, if_neg (by simp)]
    cases hE : (obtener_recomendaciones_financieras df (({} : Perfil))).isEmpty
    · simp [hE, show as_bool PV.missing = false from rfl]
    · simp [hE]

/-- Claim C6, witness at a concrete wrong-token request and a concrete
correct-token empty-body request. -/
theorem C6_witness :
    diagnostico "t" "Bearer wrong" (some { solicita_contacto := PV.b true })
        (.error "sin archivo") "k" (some "texto") =
      ⟨401, [("error", RVal.str "Unauthorized")], false⟩ ∧
    (diagnostico "t" ("Bearer " ++ "t") none
        (.ok (Table.mk ["Financiera"] [["A"]])) "k" (some "texto")).code = 200 :=
  C6_thm "t" (by decide) "Bearer wrong" (by decide)
    (some { solicita_contacto := PV.b true }) (.error "sin archivo") "k"
    (some "texto") (Table.mk ["Financiera"] [["A"]])

/-- Claim C2, counterexample: with the collateral flag true and a source
row whose type cell coincides with its institution cell, the returned
strategy record contains the institution-name value ("Capital Pyme") in
its `tipo` field — refuting "no record in the returned recomendaciones
list contains the institution-name value of any source-table row". -/
theorem C2_cex :
    (diagnostico "t" ("Bearer " ++ "t")
        (some { tiene_garantia_inmueble := PV.s "true" })
        (.ok (Table.mk ["Financiera", "Tipo"] [["Capital Pyme", "Capital Pyme"]]))
        "" none).body.find? (fun p => p.1 == "recomendaciones") =
      some ("recomendaciones",
        RVal.estr [⟨"Estrategia Alfa: Optimización con Respaldo Inmobiliario",
                    "Capital Pyme", "", "", ""⟩]) ∧
    cellAt ["Financiera", "Tipo"] ["Capital Pyme", "Capital Pyme"] "Financiera" =
      "Capital Pyme" := by
  exact ⟨by decide, by decide⟩

/-- Claim C2, amended: the anonymizing transformer (whose output is the
`recomendaciones` list whenever the collateral flag is true and matches
exist) emits records with no `financiera` field at all; each record's
label is the fixed generic sequential text determined solely by its
position, and the whole output is invariant under arbitrary rewriting of
the institution-name values of the input — the other copied fields
(`tipo`, `caracteristicas`, `monto_ref`, `plazo_ref`) may, however,
coincide with an institution name. -/
theorem C2_thm (recs : List Rec) (f : Rec → String) :
    recomendaciones_a_estrategias
        (recs.map (fun r => { r with financiera := f r })) =
      recomendaciones_a_estrategias recs ∧
    (recomendaciones_a_estrategias recs).map Estrategia.estrategia =
      (List.range recs.length).map (fun j => etiqueta (j + 1)) := by
  constructor
  · exact estrategiasAux_fin_free 1 recs f
  · rw [recomendaciones_a_estrategias, estrategiasAux_labels]
    apply List.map_congr_left
    intro j hj
    exact congrArg etiqueta (by omega)

/-- Claim C5, counterexample: the profile string "Cred.to" is kept
against the cell "Credito" by the source's filter (pandas `str.contains`
interprets it as a regular expression, the dot matching any character),
although it is not a case-insensitive substring of the cell — refuting
"plain substring containment, for every possible profile string". -/
theorem C5_cex :
    (tipoStage "Cred.to" (Table.mk ["Tipo"] [["Credito"]])).rows =
      [["Credito"]] ∧
    specSubstrCI "Cred.to" "Credito" = false := by
  exact ⟨by decide, by decide⟩

/-- Claim C5, amended: the financing-type filter interprets the profile
string as a case-insensitive regular expression (`re.search`); for
profile strings containing no regex metacharacter it keeps exactly the
rows whose type-column text contains the string as a case-insensitive
substring. -/
theorem C5_thm (df : Table) (c : String) (tipoUser : String)
    (hc : tipoCol df = some c) (hu : tipoUser ≠ "")
    (hm : ∀ ch ∈ tipoUser.data, ch ∉ reMeta) :
    (tipoStage tipoUser df).cols = df.cols ∧
    (tipoStage tipoUser df).rows =
      df.rows.filter (fun r => specSubstrCI tipoUser (cellAt df.cols r c)) := by
  simp only [tipoStage, hc]
  rw [if_pos hu]
  refine ⟨rfl, ?_⟩
  apply List.filter_congr
  intro r hr
  exact strContainsCI_no_meta tipoUser _ hm

/-- Claim C5, witness: the amended equivalence at a concrete
metacharacter-free profile string and table. -/
theorem C5_witness :
    (tipoStage "credito"
        (Table.mk ["Tipo"] [["Credito Simple"], ["Arrendamiento"]])).cols =
      (Table.mk ["Tipo"] [["Credito Simple"], ["Arrendamiento"]]).cols ∧
    (tipoStage "credito"
        (Table.mk ["Tipo"] [["Credito Simple"], ["Arrendamiento"]])).rows =
      (Table.mk ["Tipo"] [["Credito Simple"], ["Arrendamiento"]]).rows.filter
        (fun r => specSubstrCI "credito"
          (cellAt (Table.mk ["Tipo"] [["Credito Simple"], ["Arrendamiento"]]).cols
            r "Tipo")) :=
  C5_thm (Table.mk ["Tipo"] [["Credito Simple"], ["Arrendamiento"]]) "Tipo"
    "credito" (by decide) (by decide) (by decide)

/-- Claim C7, confirmed: the years-in-business filter maps the profile
label through the fixed table (unknown labels to 0), extracts the first
digit run of each row's age-requirement text (none to 0), keeps exactly
the rows whose extracted minimum is at most the user's mapped years, and
drops nothing when no age-requirement column exists. -/
theorem C7_thm (df : Table) (c : String) (y : Nat) (label s : String) :
    (map_antiguedad_user "Menos de 1 año" = 0 ∧
      map_antiguedad_user "Entre 1 y 3 años" = 1 ∧
      map_antiguedad_user "Entre 3 y 5 años" = 3 ∧
      map_antiguedad_user "Más de 5 años" = 5) ∧
    (label ∉ (["Menos de 1 año", "Entre 1 y 3 años", "Entre 3 y 5 años",
        "Más de 5 años"] : List String) → map_antiguedad_user label = 0) ∧
    ((∀ ch ∈ s.data, ch.isDigit = false) → extract_min_years s = 0) ∧
    extract_min_years "3 años" = 3 ∧
    (antCol df = some c →
      (yearsStage y df).cols = df.cols ∧
      (yearsStage y df).rows =
        df.rows.filter (fun r => extract_min_years (cellAt df.cols r c) ≤ y)) ∧
    (antCol df = none → yearsStage y df = df) := by
  refine ⟨⟨rfl, rfl, rfl, rfl⟩, ?_, ?_, by decide, ?_, ?_⟩
  · intro hl
    simp only [List.mem_cons, List.not_mem_nil, or_false, not_or] at hl
    obtain ⟨h1, h2, h3, h4⟩ := hl
    simp [map_antiguedad_user, h1, h2, h3, h4]
  · intro hd
    have hnone : firstDigitRun (pyStrip s).data = none :=
      firstDigitRun_none _ (fun ch hch => hd ch (mem_of_mem_trimL ch s.data hch))
    unfold extract_min_years
    rw [hnone]
  · intro hc
    simp [yearsStage, hc]
  · intro hc
    simp [yearsStage, hc]

/-- Claim C7, witness: the spec's own examples — an unknown label maps to
0, digit-free age text extracts to 0, the "3 años" row is dropped for a
user mapped to 1 year but kept for 5, and a table without an age column
loses no rows. -/
theorem C7_witness :
    map_antiguedad_user "Desconocido" = 0 ∧
    extract_min_years "sin numero" = 0 ∧
    ((yearsStage 1 (Table.mk ["Antiguedad"] [["3 años"], ["1 año"]])).cols =
        (Table.mk ["Antiguedad"] [["3 años"], ["1 año"]]).cols ∧
      (yearsStage 1 (Table.mk ["Antiguedad"] [["3 años"], ["1 año"]])).rows =
        (Table.mk ["Antiguedad"] [["3 años"], ["1 año"]]).rows.filter
          (fun r => extract_min_years
            (cellAt (Table.mk ["Antiguedad"] [["3 años"], ["1 año"]]).cols r
              "Antiguedad") ≤ 1)) ∧
    yearsStage 5 (Table.mk ["Ventas"] [["r"]]) = Table.mk ["Ventas"] [["r"]] := by
  refine ⟨?_, ?_, ?_, ?_⟩
  · exact (C7_thm (Table.mk ["Ventas"] [["r"]]) "" 0 "Desconocido" "x").2.1
      (by decide)
  · exact (C7_thm (Table.mk ["Ventas"] [["r"]]) "" 0 "x" "sin numero").2.2.1
      (by decide)
  · exact (C7_thm (Table.mk ["Antiguedad"] [["3 años"], ["1 año"]])
      "Antiguedad" 1 "x" "x").2.2.2.2.1 (by decide)
  · exact (C7_thm (Table.mk ["Ventas"] [["r"]]) "" 5 "x" "x").2.2.2.2.2
      (by decide)

/-- Claim C8, confirmed: when `ventas_rango` is non-empty and exactly a
column name, the sales-range filter keeps exactly the rows whose value in
that column equals the marker "X" after trimming and case folding;
otherwise the filter drops no rows. -/
theorem C8_thm (df : Table) (rango : String) :
    (rango ≠ "" → rango ∈ df.cols →
      (salesFilter rango df).cols = df.cols ∧
      (salesFilter rango df).rows =
        df.rows.filter
          (fun r => pyUpper (pyStrip (cellAt df.cols r rango)) == "X")) ∧
    ((rango = "" ∨ rango ∉ df.cols) → salesFilter rango df = df) := by
  constructor
  · intro h1 h2
    unfold salesFilter
    rw [if_pos ⟨h1, h2⟩]
    refine ⟨rfl, ?_⟩
    apply List.filter_congr
    intro r hr
    rw [strip_upper_comm]
  · intro h
    unfold salesFilter
    rcases h with h | h
    · rw [if_neg (by simp [h])]
    · rw [if_neg (by simp [h])]

/-- Claim C8, witness: the spec's example table — both marker spellings
"X" and " x " survive in the selected column, others are dropped — and
the empty-profile case is the identity. -/
theorem C8_witness :
    ((salesFilter "1M-10M"
        (Table.mk ["Financiera", "0-1M", "1M-10M"]
          [["A", "X", ""], ["B", "", " x "], ["C", "", "no"]])).cols =
      (Table.mk ["Financiera", "0-1M", "1M-10M"]
          [["A", "X", ""], ["B", "", " x "], ["C", "", "no"]]).cols ∧
      (salesFilter "1M-10M"
        (Table.mk ["Financiera", "0-1M", "1M-10M"]
          [["A", "X", ""], ["B", "", " x "], ["C", "", "no"]])).rows =
      (Table.mk ["Financiera", "0-1M", "1M-10M"]
          [["A", "X", ""], ["B", "", " x "], ["C", "", "no"]]).rows.filter
        (fun r => pyUpper (pyStrip (cellAt
          (Table.mk ["Financiera", "0-1M", "1M-10M"]
            [["A", "X", ""], ["B", "", " x "], ["C", "", "no"]]).cols r
          "1M-10M")) == "X")) ∧
    salesFilter ""
        (Table.mk ["Financiera", "0-1M", "1M-10M"]
          [["A", "X", ""], ["B", "", " x "], ["C", "", "no"]]) =
      Table.mk ["Financiera", "0-1M", "1M-10M"]
        [["A", "X", ""], ["B", "", " x "], ["C", "", "no"]] :=
  ⟨(C8_thm (Table.mk ["Financiera", "0-1M", "1M-10M"]
      [["A", "X", ""], ["B", "", " x "], ["C", "", "no"]]) "1M-10M").1
    (by decide) (by decide),
   (C8_thm (Table.mk ["Financiera", "0-1M", "1M-10M"]
      [["A", "X", ""], ["B", "", " x "], ["C", "", "no"]]) "").2 (Or.inl rfl)⟩

/-- Claim C9, confirmed: the matcher returns exactly the records of the
first at most 3 rows surviving the three filters, in the table's original
order (the kept rows are a sublist of the table's rows — no ranking or
sorting), and 7 surviving rows yield exactly 3 results. -/
theorem C9_thm (df : Table) (perfil : Perfil) :
    obtener_recomendaciones_financieras df perfil =
      ((filteredTable df perfil).rows.take 3).map
        (mkRec (filteredTable df perfil).cols) ∧
    List.Sublist ((filteredTable df perfil).rows.take 3) df.rows ∧
    (obtener_recomendaciones_financieras df perfil).length =
      min 3 (filteredTable df perfil).rows.length ∧
    ((filteredTable df perfil).rows.length = 7 →
      (obtener_recomendaciones_financieras df perfil).length = 3) := by
  refine ⟨rfl, ?_, ?_, ?_⟩
  · exact (List.take_sublist 3 _).trans (filteredTable_rows_sublist df perfil)
  · rw [obtener_recomendaciones_financieras]
    simp [List.length_take]
  · intro h7
    rw [obtener_recomendaciones_financieras]
    simp [List.length_take, h7]

/-- Claim C9, witness: a 7-row table that survives all filters unchanged
yields exactly 3 records. -/
theorem C9_witness :
    (filteredTable (Table.mk ["Financiera"]
        [["a"], ["b"], ["c"], ["d"], ["e"], ["f"], ["g"]]) {}).rows.length = 7 ∧
    (obtener_recomendaciones_financieras (Table.mk ["Financiera"]
        [["a"], ["b"], ["c"], ["d"], ["e"], ["f"], ["g"]]) {}).length = 3 :=
  ⟨by decide,
   (C9_thm (Table.mk ["Financiera"]
      [["a"], ["b"], ["c"], ["d"], ["e"], ["f"], ["g"]]) {}).2.2.2 (by decide)⟩

/-- Claim C10, confirmed: once the cache holds a table, every later load
returns that same table, leaves the slot unchanged and performs no file
read (over any number of calls the file is read exactly once after the
first successful load), and the matcher — which works on a copy — leaves
the cached table untouched for every profile and file outcome. -/
theorem C10_thm (t raw : Table) (file : Except String Table) (perfil : Perfil)
    (n : Nat) :
    load_matriz (some t) file = ⟨.ok t, some t, false⟩ ∧
    loadTrace file n (some t) = (some t, 0) ∧
    loadTrace (.ok raw) (n + 1) none = (some (stripCols raw), 1) ∧
    obtenerSt (some t) file perfil =
      (.ok (obtener_recomendaciones_financieras t perfil), some t) := by
  refine ⟨rfl, loadTrace_cached file n t, ?_, rfl⟩
  simp [loadTrace, load_matriz, loadTrace_cached]
